import Mathlib

/-!
Shallow embedding of the tenant-resolution and session-authentication core
of the multi-tenant blog application (Next.js / Prisma), together with
proofs of the specification's testable properties.

Conventions of the embedding:
* Database tables are Lean lists of rows; `prisma.<model>.findUnique` on a
  unique column is `List.find?` on that column (uniqueness of the column is
  a schema invariant, carried as a hypothesis where a theorem needs it).
* Timestamps (`Date`) are `Nat` milliseconds; `new Date()` at an operation
  is an explicit `now : Nat` argument.
* JavaScript string truthiness (`if (!x)`) on an optional string is
  `optTruthy`: `undefined`/`null` and the empty string are falsy.
* Operations that mutate the store return the updated list of rows.
* `try/catch` blocks that swallow a storage error and return a default are
  modelled with `Except`: the fallible primitive returns `Except`, the
  wrapper pattern-matches and maps `error` to the default.
-/

namespace MultitenantBlog

/-- JavaScript `String.prototype.split` with a one-character separator,
on the character list of the string: `"".split(sep)` is `[""]`, and a
separator occurrence at either end produces an empty piece. -/
def splitOnChar (sep : Char) : List Char → List (List Char)
  | [] => [[]]
  | c :: cs =>
    let r := splitOnChar sep cs
    if c == sep then [] :: r
    else
      match r with
      | [] => [[c]]
      | h :: t => (c :: h) :: t

/-- JavaScript `s.split(sep)` for a one-character separator, as strings. -/
def jsSplit (sep : Char) (s : String) : List String :=
  (splitOnChar sep s.data).map List.asString

/-- JavaScript `s.toLowerCase()` (ASCII case mapping suffices here). -/
def jsToLower (s : String) : String :=
  (s.data.map Char.toLower).asString

/-- JavaScript `s.trim()`: strip leading and trailing whitespace. -/
def jsTrim (s : String) : String :=
  (((s.data.dropWhile Char.isWhitespace).reverse.dropWhile Char.isWhitespace).reverse).asString

/-- JavaScript truthiness of an optional string argument:
`undefined` and `""` are falsy, every other string is truthy. -/
def optTruthy : Option String → Bool
  | none => false
  | some s => !(s == "")

/-! ### Data model (prisma/schema.prisma) -/

/-- A row of the `Tenant` table. -/
structure Tenant where
  id : String
  subdomain : String
  name : String
deriving DecidableEq

/-- A row of the `User` table. `password` holds the bcrypt digest. -/
structure User where
  id : String
  email : String
  password : String
  name : Option String
  tenantId : String
deriving DecidableEq

/-- A row of the `Session` table. `expiresAt` is a millisecond timestamp. -/
structure Session where
  userId : String
  tenantId : String
  token : String
  expiresAt : Nat
deriving DecidableEq

/-- The value `getSession` returns on success: `{userId, tenantId, token}`. -/
structure SessionIdentity where
  userId : String
  tenantId : String
  token : String
deriving DecidableEq

/-- The tenant table together with a flag modelling whether the underlying
storage call fails (throws) instead of answering. -/
structure TenantStore where
  tenants : List Tenant
  storageFails : Bool

/-! ### lib/tenant.ts -/

/-- `prisma.tenant.findUnique({ where: { subdomain } })`: either the lookup
result, or a thrown storage error. -/
def prismaTenantFindUnique (ts : TenantStore) (sub : String) :
    Except String (Option Tenant) :=
  if ts.storageFails then .error "storage failure"
  else .ok (ts.tenants.find? (fun t => t.subdomain == sub))

/-- `getTenantBySubdomain` (lib/tenant.ts): normalizes the input with
`.toLowerCase().trim()`, looks the tenant up by subdomain, and collapses a
thrown storage error into the `null` (not-found) outcome via `try/catch`. -/
def getTenantBySubdomain (ts : TenantStore) (subdomain : String) : Option Tenant :=
  match prismaTenantFindUnique ts (jsTrim (jsToLower subdomain)) with
  | .ok t => t
  | .error _ => none

/-! ### middleware.ts / lib/auth-server.ts -/

/-- `extractSubdomain` (middleware.ts and lib/auth-server.ts): strip the
port, return `null` for the loopback aliases, split the host on dots and
return the first label when there are at least three labels. -/
def extractSubdomain (hostname : String) : Option String :=
  let hostWithoutPort := (jsSplit ':' hostname).headD ""
  if hostWithoutPort == "localhost" || hostWithoutPort == "127.0.0.1" then
    none
  else
    let parts := jsSplit '.' hostWithoutPort
    if parts.length ≥ 3 then some (parts.headD "") else none

/-! ### lib/tenant-context.ts -/

/-- `getTenantFromRequest` (lib/tenant-context.ts): read the
`x-tenant-subdomain` header set by the middleware (absent or empty is
falsy) and resolve it through `getTenantBySubdomain`. -/
def getTenantFromRequest (ts : TenantStore) (subHeader : Option String) :
    Option Tenant :=
  if !(optTruthy subHeader) then none
  else getTenantBySubdomain ts (subHeader.getD "")

/-! ### lib/session.ts -/

/-- `SESSION_EXPIRATION_DAYS` (lib/session.ts). -/
def SESSION_EXPIRATION_DAYS : Nat := 30

/-- The session lifetime in milliseconds; the source adds 30 calendar days
to `new Date()`, modelled as a fixed 30-day span. -/
def sessionLifetimeMs : Nat := SESSION_EXPIRATION_DAYS * 24 * 60 * 60 * 1000

/-- `createSession(userId, tenantId)` (lib/session.ts): persist a session
row with `expiresAt = now + 30 days` and hand the raw token back (the
generated token, a 64-hex-character random string, is a parameter here).
Returns the updated session table and the token. -/
def createSession (db : List Session) (userId tenantId token : String)
    (now : Nat) : List Session × String :=
  (⟨userId, tenantId, token, now + sessionLifetimeMs⟩ :: db, token)

/-- `prisma.session.delete({ where: { token } })`: deletes the row, or
throws a record-not-found error if no row has that token. -/
def prismaSessionDelete (db : List Session) (token : String) :
    Except String (List Session) :=
  if db.any (fun s => s.token == token) then
    .ok (db.filter (fun s => !(s.token == token)))
  else
    .error "Record to delete does not exist"

/-- `deleteSession(token)` (lib/session.ts): delete the session row by
token; the `try/catch` swallows the record-not-found error, so revoking an
absent token leaves the table unchanged and reports no error. -/
def deleteSession (db : List Session) (token : String) : List Session :=
  match prismaSessionDelete db token with
  | .ok db2 => db2
  | .error _ => db

/-- `getSession(tenantId?)` (lib/session.ts): read the token from the
cookie (absent or empty is falsy), look the session up by token, reap it
if `expiresAt < now`, reject a tenant mismatch when the `tenantId`
argument is truthy, and otherwise return `{userId, tenantId, token}`.
Returns the result together with the (possibly reaped) session table. -/
def getSession (db : List Session) (cookieToken : Option String)
    (tenantId : Option String) (now : Nat) :
    Option SessionIdentity × List Session :=
  if !(optTruthy cookieToken) then (none, db)
  else
    let token := cookieToken.getD ""
    match db.find? (fun s => s.token == token) with
    | none => (none, db)
    | some session =>
      if session.expiresAt < now then (none, deleteSession db token)
      else if optTruthy tenantId && !(session.tenantId == tenantId.getD "") then
        (none, db)
      else
        (some ⟨session.userId, session.tenantId, session.token⟩, db)

/-- `getSessionUser(tenantId)` (lib/session.ts): validate the session with
the tenant id, load the user row by the session's `userId`
(`prisma.user.findUnique({ where: { id } })`), and re-check that the user's
live `tenantId` agrees with the requested tenant. -/
def getSessionUser (sessions : List Session) (users : List User)
    (cookie : Option String) (tenantId : String) (now : Nat) : Option User :=
  match (getSession sessions cookie (some tenantId) now).1 with
  | none => none
  | some sid =>
    match users.find? (fun u => u.id == sid.userId) with
    | none => none
    | some user =>
      if user.tenantId == tenantId then some user else none

/-! ### lib/auth.ts -/

/-- `getAuthenticatedUser(request)` (lib/auth.ts): resolve the tenant from
the request's `x-tenant-subdomain` header; if unresolved return `null`,
otherwise delegate to `getSessionUser` with the resolved tenant's id. -/
def getAuthenticatedUser (ts : TenantStore) (users : List User)
    (sessions : List Session) (subHeader cookie : Option String)
    (now : Nat) : Option User :=
  match getTenantFromRequest ts subHeader with
  | none => none
  | some tenant => getSessionUser sessions users cookie tenant.id now

/-! ### app/api/auth/login/route.ts and app/api/auth/signup/route.ts -/

/-- A JSON response body: either an error message or the login/signup
success payload `{id, email, name}` (the password digest is excluded). -/
inductive ApiBody
  | err (msg : String)
  | loginSuccess (id email : String) (name : Option String)
deriving DecidableEq

/-- Outcome of the login handler: HTTP status, body, and the session table
after the handler ran. -/
structure LoginOutcome where
  status : Nat
  body : ApiBody
  sessions : List Session
deriving DecidableEq

/-- `dbUser.findByEmail(tenantId, email)` (lib/db.ts):
`prisma.user.findUnique` on the composite unique key `(email, tenantId)`. -/
def findByEmail (users : List User) (tenantId email : String) : Option User :=
  users.find? (fun u => u.email == email && u.tenantId == tenantId)

/-- `POST /api/auth/login`: resolve the tenant from the request header,
require both fields, look the user up by `(email, tenantId)`, compare the
password with bcrypt (`verify`), and return the same
`401 "Invalid email or password"` for a missing user and for a wrong
password. On success a session is created with a fresh `newToken`. -/
def loginPOST (ts : TenantStore) (users : List User) (sessions : List Session)
    (verify : String → String → Bool) (subHeader : Option String)
    (email password : Option String) (newToken : String) (now : Nat) :
    LoginOutcome :=
  match getTenantFromRequest ts subHeader with
  | none => ⟨404, .err "Tenant not found", sessions⟩
  | some tenant =>
    if !(optTruthy email) || !(optTruthy password) then
      ⟨400, .err "Email and password are required", sessions⟩
    else
      match findByEmail users tenant.id (email.getD "") with
      | none => ⟨401, .err "Invalid email or password", sessions⟩
      | some user =>
        if !(verify (password.getD "") user.password) then
          ⟨401, .err "Invalid email or password", sessions⟩
        else
          ⟨200, .loginSuccess user.id user.email user.name,
            (createSession sessions user.id tenant.id newToken now).1⟩

/-- A character admissible in the signup email regex classes: the regex
`/^[^\s@]+@[^\s@]+\.[^\s@]+$/` only uses the class `[^\s@]`. -/
def isEmailChar (c : Char) : Bool := !(c == '@') && !c.isWhitespace

/-- The signup handler's test of `/^[^\s@]+@[^\s@]+\.[^\s@]+$/`: the string
matches iff it has exactly one `@`, a nonempty whitespace-free part before
it, a nonempty whitespace-free part after it, and that second part
contains a dot that is neither its first nor its last character (the regex
pieces `[^\s@]+` around the literal dot may themselves contain dots, so
any internal dot position witnesses a match). -/
def emailFormatOk (s : String) : Bool :=
  match splitOnChar '@' s.data with
  | [a, rest] =>
    !a.isEmpty && !rest.isEmpty &&
    a.all isEmailChar && rest.all isEmailChar &&
    ((rest.drop 1).dropLast.contains '.')
  | _ => false

/-- The signup handler's `name?.trim() || null`: an absent name stays
absent, and a name that trims to the empty string becomes `null`. -/
def jsOptName : Option String → Option String
  | none => none
  | some n => if jsTrim n == "" then none else some (jsTrim n)

/-- Outcome of the signup handler: HTTP status and the user and session
tables after the handler ran. -/
structure SignupOutcome where
  status : Nat
  users : List User
  sessions : List Session
deriving DecidableEq

/-- `POST /api/auth/signup`: resolve the tenant, require both fields,
validate the email shape and the minimum password length (6), reject with
409 when `(email, tenantId)` already exists, otherwise create the user
(storing `email.toLowerCase().trim()` and the bcrypt digest `hash`) and
immediately create a session for the new user. -/
def signupPOST (ts : TenantStore) (users : List User) (sessions : List Session)
    (hash : String → String) (subHeader : Option String)
    (email password name : Option String)
    (newUserId newToken : String) (now : Nat) : SignupOutcome :=
  match getTenantFromRequest ts subHeader with
  | none => ⟨404, users, sessions⟩
  | some tenant =>
    if !(optTruthy email) || !(optTruthy password) then ⟨400, users, sessions⟩
    else if !(emailFormatOk (email.getD "")) then ⟨400, users, sessions⟩
    else if (password.getD "").length < 6 then ⟨400, users, sessions⟩
    else
      match findByEmail users tenant.id (email.getD "") with
      | some _ => ⟨409, users, sessions⟩
      | none =>
        ⟨201,
          ⟨newUserId, jsTrim (jsToLower (email.getD "")),
            hash (password.getD ""), jsOptName name, tenant.id⟩ :: users,
          (createSession sessions newUserId tenant.id newToken now).1⟩

/-! ### Helper lemmas -/

/-- Every row surviving `deleteSession db token` has a different token. -/
theorem mem_deleteSession_token_beq_false (db : List Session) (token : String) :
    ∀ s ∈ deleteSession db token, (s.token == token) = false := by
  intro s hs
  unfold deleteSession prismaSessionDelete at hs
  cases h : db.any (fun s => s.token == token) with
  | false =>
    simp only [h, Bool.false_eq_true, if_false] at hs
    simp only [List.any_eq_false] at h
    simpa using h s hs
  | true =>
    simp only [h, if_true] at hs
    simpa using (List.mem_filter.mp hs).2

/-- Deleting a token that appears in no row leaves the table unchanged
(the thrown record-not-found error is swallowed). -/
theorem deleteSession_of_absent (db : List Session) (token : String)
    (h : db.any (fun s => s.token == token) = false) :
    deleteSession db token = db := by
  unfold deleteSession prismaSessionDelete
  simp [h]

/-- Claim C9: revoke (`deleteSession`) is idempotent: revoking an absent
token is not an error (the function is total and leaves the table as is),
after one call no row with that token remains, and a second call in
succession changes nothing. -/
theorem claim_C9_revoke_idempotent (db : List Session) (token : String) :
    (∀ s ∈ deleteSession db token, s.token ≠ token) ∧
    deleteSession (deleteSession db token) token = deleteSession db token := by
  have hne := mem_deleteSession_token_beq_false db token
  constructor
  · intro s hs
    simpa using hne s hs
  · apply deleteSession_of_absent
    simp only [List.any_eq_false]
    intro s hs
    simpa using hne s hs

/-- Claim C9 witness: evaluating the theorem on a concrete two-row table. -/
theorem claim_C9_witness :
    (⟨"u1", "t1", "tok2", 5⟩ : Session).token ≠ "tok1" ∧
    deleteSession
        (deleteSession [⟨"u1", "t1", "tok1", 5⟩, ⟨"u1", "t1", "tok2", 5⟩] "tok1")
        "tok1"
      = deleteSession [⟨"u1", "t1", "tok1", 5⟩, ⟨"u1", "t1", "tok2", 5⟩] "tok1" :=
  ⟨(claim_C9_revoke_idempotent
      [⟨"u1", "t1", "tok1", 5⟩, ⟨"u1", "t1", "tok2", 5⟩] "tok1").1
      ⟨"u1", "t1", "tok2", 5⟩ (by decide),
   (claim_C9_revoke_idempotent
      [⟨"u1", "t1", "tok1", 5⟩, ⟨"u1", "t1", "tok2", 5⟩] "tok1").2⟩

/-- Claim C5: round-trip. A session freshly created by `createSession`
(for any user, tenant, a nonempty token that collides with no existing
row — the schema's unique token constraint — and any creation time)
validates at any time within the 30-day lifetime to exactly
`{userId, tenantId, token}`, with the store left unchanged. -/
theorem claim_C5_create_validate_roundtrip (db : List Session)
    (userId tenantId token : String) (now now2 : Nat)
    (htok : token ≠ "")
    (_hfresh : ∀ s ∈ db, s.token ≠ token)
    (hlive : now2 ≤ now + sessionLifetimeMs) :
    getSession (createSession db userId tenantId token now).1 (some token)
        (some tenantId) now2
      = (some ⟨userId, tenantId, token⟩,
         (createSession db userId tenantId token now).1) := by
  have h1 : (token == "") = false := beq_eq_false_iff_ne.mpr htok
  have h2 : ¬ (now + sessionLifetimeMs < now2) := Nat.not_lt.mpr hlive
  simp [getSession, createSession, optTruthy, h1, h2, List.find?]

/-- Claim C5 witness: a concrete round-trip at the expiry boundary. -/
theorem claim_C5_witness :
    getSession (createSession [] "u1" "t1" "tok64" 1000).1 (some "tok64")
        (some "t1") (1000 + sessionLifetimeMs)
      = (some ⟨"u1", "t1", "tok64"⟩,
         (createSession [] "u1" "t1" "tok64" 1000).1) :=
  claim_C5_create_validate_roundtrip [] "u1" "t1" "tok64" 1000
    (1000 + sessionLifetimeMs) (by decide) (by intro s hs; cases hs)
    (Nat.le_refl _)

/-- Claim C10: `getSession` enforces the tenant check only for a truthy
`expectedTenantId`; with the empty string (or an omitted argument) the
check `if (tenantId && session.tenantId !== tenantId)` is skipped, so a
valid unexpired token of any tenant yields its session identity, and the
empty-string call is indistinguishable from the omitted-argument call. -/
theorem claim_C10_empty_expected_tenant_skips_check (db : List Session)
    (token : String) (s : Session) (now : Nat)
    (htok : token ≠ "")
    (hfind : db.find? (fun x => x.token == token) = some s)
    (hexp : ¬ s.expiresAt < now) :
    (getSession db (some token) (some "") now).1
        = some ⟨s.userId, s.tenantId, s.token⟩ ∧
    getSession db (some token) (some "") now
        = getSession db (some token) none now := by
  have h1 : (token == "") = false := beq_eq_false_iff_ne.mpr htok
  constructor <;> simp [getSession, optTruthy, h1, hfind, hexp]

/-- Claim C10 witness: a concrete cross-tenant session is returned when
the expected tenant argument is the empty string. -/
theorem claim_C10_witness :
    (getSession [⟨"u9", "otherTenant", "tk", 50⟩] (some "tk") (some "") 50).1
        = some ⟨"u9", "otherTenant", "tk"⟩ ∧
    getSession [⟨"u9", "otherTenant", "tk", 50⟩] (some "tk") (some "") 50
        = getSession [⟨"u9", "otherTenant", "tk", 50⟩] (some "tk") none 50 :=
  claim_C10_empty_expected_tenant_skips_check
    [⟨"u9", "otherTenant", "tk", 50⟩] "tk" ⟨"u9", "otherTenant", "tk", 50⟩ 50
    (by decide) (by decide) (by decide)

/-- Claim C1: a session bound to one tenant fails validation against a
different expected tenant id (tenant ids are nonempty opaque UUIDs, hence
the `expected ≠ ""` hypothesis), even though the token is present and
unexpired; the outcome is `none` with the store untouched — the very same
outcome as for a token that matches no session row, so a cross-tenant
replay is indistinguishable from a bad token. -/
theorem claim_C1_cross_tenant_invalid (db : List Session)
    (token expected : String) (s : Session) (now : Nat)
    (htok : token ≠ "")
    (hfind : db.find? (fun x => x.token == token) = some s)
    (hexp : ¬ s.expiresAt < now)
    (hne : expected ≠ s.tenantId)
    (hnz : expected ≠ "") :
    (getSession db (some token) (some expected) now).1 = none ∧
    (getSession db (some token) (some expected) now).2 = db ∧
    ∀ badToken : String,
      db.find? (fun x => x.token == badToken) = none →
      getSession db (some token) (some expected) now
        = getSession db (some badToken) (some expected) now := by
  have h1 : (token == "") = false := beq_eq_false_iff_ne.mpr htok
  have h2 : (expected == "") = false := beq_eq_false_iff_ne.mpr hnz
  have h3 : (s.tenantId == expected) = false :=
    beq_eq_false_iff_ne.mpr (Ne.symm hne)
  have hl : getSession db (some token) (some expected) now = (none, db) := by
    simp [getSession, optTruthy, h1, hfind, hexp, h2, h3]
  refine ⟨by rw [hl], by rw [hl], ?_⟩
  intro badToken hbad
  rw [hl]
  cases hb : (badToken == "") with
  | true =>
    have ht : optTruthy (some badToken) = false := by simp [optTruthy, hb]
    simp [getSession, ht]
  | false =>
    have ht : optTruthy (some badToken) = true := by simp [optTruthy, hb]
    simp [getSession, ht, hbad]

/-- Claim C1 witness: a concrete valid unexpired session for tenant t1 is
rejected when validated against tenant t2, exactly like an unknown token. -/
theorem claim_C1_witness :
    (getSession [⟨"u1", "t1", "tokA", 900⟩] (some "tokA") (some "t2") 100).1
        = none ∧
    (getSession [⟨"u1", "t1", "tokA", 900⟩] (some "tokA") (some "t2") 100).2
        = [⟨"u1", "t1", "tokA", 900⟩] ∧
    ∀ badToken : String,
      ([⟨"u1", "t1", "tokA", 900⟩] : List Session).find?
          (fun x => x.token == badToken) = none →
      getSession [⟨"u1", "t1", "tokA", 900⟩] (some "tokA") (some "t2") 100
        = getSession [⟨"u1", "t1", "tokA", 900⟩] (some badToken) (some "t2") 100 :=
  claim_C1_cross_tenant_invalid [⟨"u1", "t1", "tokA", 900⟩] "tokA" "t2"
    ⟨"u1", "t1", "tokA", 900⟩ 100 (by decide) (by decide) (by decide)
    (by decide) (by decide)

/-- Claim C3 counterexample: the claim asserts `expiresAt <= now` is
treated as expired (Invalid, row deleted). On the code, a session whose
`expiresAt` equals the validation time is accepted: `getSession` returns
the session identity, not `null`, and the row is not deleted (the code
condition is the strict `session.expiresAt < new Date()`). -/
theorem claim_C3_counterexample :
    (getSession [⟨"u1", "t1", "tok", 100⟩] (some "tok") (some "t1") 100).1
        ≠ none ∧
    (getSession [⟨"u1", "t1", "tok", 100⟩] (some "tok") (some "t1") 100).2
        = [⟨"u1", "t1", "tok", 100⟩] := by
  decide

/-- Claim C3 amended: expiry is strict. A found session with
`expiresAt < now` is treated as expired: validation returns Invalid and
deletes the row as a side effect of that call; a found session with
`expiresAt` exactly equal to `now` is NOT treated as expired — its row is
kept, and validation succeeds whenever the tenant check does not fire. -/
theorem claim_C3_expiry_boundary_strict (db : List Session) (token : String)
    (s : Session) (now : Nat) (tid : Option String)
    (htok : token ≠ "")
    (hfind : db.find? (fun x => x.token == token) = some s) :
    (s.expiresAt < now →
      getSession db (some token) tid now = (none, deleteSession db token)) ∧
    (s.expiresAt = now →
      (getSession db (some token) tid now).2 = db ∧
      ((optTruthy tid && !(s.tenantId == tid.getD "")) = false →
        (getSession db (some token) tid now).1
          = some ⟨s.userId, s.tenantId, s.token⟩)) := by
  have h1 : (token == "") = false := beq_eq_false_iff_ne.mpr htok
  have hto : optTruthy (some token) = true := by simp [optTruthy, h1]
  constructor
  · intro hex
    simp [getSession, hto, hfind, hex]
  · intro heq
    have hnot : ¬ s.expiresAt < now := by omega
    constructor
    · cases hg : (optTruthy tid && !(s.tenantId == tid.getD "")) <;>
        simp [getSession, hto, hfind, hnot, hg]
    · intro hg
      simp [getSession, hto, hfind, hnot, hg]

/-- Claim C3 amended witness: one strictly expired session is reaped and
one boundary session (`expiresAt = now`) passes validation. -/
theorem claim_C3_witness :
    (getSession [⟨"u1", "t1", "tok", 99⟩] (some "tok") (some "t1") 100
        = (none, deleteSession [⟨"u1", "t1", "tok", 99⟩] "tok")) ∧
    ((getSession [⟨"u2", "t1", "tok", 100⟩] (some "tok") (some "t1") 100).2
        = [⟨"u2", "t1", "tok", 100⟩] ∧
     (getSession [⟨"u2", "t1", "tok", 100⟩] (some "tok") (some "t1") 100).1
        = some ⟨"u2", "t1", "tok"⟩) :=
  ⟨(claim_C3_expiry_boundary_strict [⟨"u1", "t1", "tok", 99⟩] "tok"
      ⟨"u1", "t1", "tok", 99⟩ 100 (some "t1") (by decide) (by decide)).1
      (by decide),
   (claim_C3_expiry_boundary_strict [⟨"u2", "t1", "tok", 100⟩] "tok"
      ⟨"u2", "t1", "tok", 100⟩ 100 (some "t1") (by decide) (by decide)).2
      (by decide) |>.1,
   (claim_C3_expiry_boundary_strict [⟨"u2", "t1", "tok", 100⟩] "tok"
      ⟨"u2", "t1", "tok", 100⟩ 100 (some "t1") (by decide) (by decide)).2
      (by decide) |>.2 (by decide)⟩

/-- Claim C4 counterexample: the claim asserts
`extractSubdomain("tenantA.example.com:3000") = "tenanta"`. The code
returns the first label unchanged: `"tenantA"` — lower-casing only happens
downstream, inside `getTenantBySubdomain`. -/
theorem claim_C4_counterexample :
    extractSubdomain "tenantA.example.com:3000" ≠ some "tenanta" ∧
    extractSubdomain "tenantA.example.com:3000" = some "tenantA" := by
  decide

/-- Unfolding equation for `extractSubdomain` with the local binding
inlined. -/
theorem extractSubdomain_eq (host : String) :
    extractSubdomain host =
      if (jsSplit ':' host).headD "" == "localhost"
          || (jsSplit ':' host).headD "" == "127.0.0.1" then none
      else if 3 ≤ (jsSplit '.' ((jsSplit ':' host).headD "")).length
        then some ((jsSplit '.' ((jsSplit ':' host).headD "")).headD "")
        else none := rfl

/-- Claim C4 amended: `extractSubdomain "tenantA.example.com:3000"` is
`some "tenantA"` — the first label with its case preserved (normalization
happens downstream in the tenant lookup); `"localhost:3000"` and
`"example.com"` give `none`; in general the function strips a port
suffix, returns `none` for the loopback aliases and for hosts with fewer
than three dot-separated labels, and otherwise returns the first label. -/
theorem claim_C4_extract_subdomain_behavior :
    extractSubdomain "tenantA.example.com:3000" = some "tenantA" ∧
    extractSubdomain "localhost:3000" = none ∧
    extractSubdomain "example.com" = none ∧
    ∀ host : String,
      (((jsSplit ':' host).headD "" = "localhost" ∨
        (jsSplit ':' host).headD "" = "127.0.0.1") →
          extractSubdomain host = none) ∧
      ((jsSplit '.' ((jsSplit ':' host).headD "")).length < 3 →
          extractSubdomain host = none) ∧
      (¬ ((jsSplit ':' host).headD "" = "localhost" ∨
          (jsSplit ':' host).headD "" = "127.0.0.1") →
        3 ≤ (jsSplit '.' ((jsSplit ':' host).headD "")).length →
          extractSubdomain host
            = some ((jsSplit '.' ((jsSplit ':' host).headD "")).headD "")) := by
  refine ⟨by decide, by decide, by decide, ?_⟩
  intro host
  refine ⟨?_, ?_, ?_⟩
  · rintro (h | h) <;>
    · rw [extractSubdomain_eq]
      rw [if_pos (by rw [beq_iff_eq.mpr h]; simp)]
  · intro hlen
    rw [extractSubdomain_eq]
    by_cases hc : (((jsSplit ':' host).headD "" == "localhost")
        || ((jsSplit ':' host).headD "" == "127.0.0.1")) = true
    · rw [if_pos hc]
    · rw [if_neg hc, if_neg (by omega)]
  · intro hloop hge
    push_neg at hloop
    have hb1 : ((jsSplit ':' host).headD "" == "localhost") = false :=
      beq_eq_false_iff_ne.mpr hloop.1
    have hb2 : ((jsSplit ':' host).headD "" == "127.0.0.1") = false :=
      beq_eq_false_iff_ne.mpr hloop.2
    rw [extractSubdomain_eq, if_neg (by rw [hb1, hb2]; simp), if_pos hge]

/-- Claim C4 amended witness: a four-label host with a port. -/
theorem claim_C4_witness :
    extractSubdomain "blog.corp.example.org:8080" = some "blog" :=
  (claim_C4_extract_subdomain_behavior.2.2.2 "blog.corp.example.org:8080").2.2
    (by decide) (by decide)

/-- `getSessionUser` returns `none` or a user whose live `tenantId` equals
the requested tenant id (the defense-in-depth re-check). -/
theorem getSessionUser_tenant_consistent (sessions : List Session)
    (users : List User) (cookie : Option String) (tenantId : String)
    (now : Nat) :
    getSessionUser sessions users cookie tenantId now = none ∨
    ∃ u, getSessionUser sessions users cookie tenantId now = some u ∧
      u.tenantId = tenantId := by
  cases h1 : (getSession sessions cookie (some tenantId) now).1 with
  | none => exact Or.inl (by simp [getSessionUser, h1])
  | some sid =>
    cases h2 : users.find? (fun u => u.id == sid.userId) with
    | none => exact Or.inl (by simp [getSessionUser, h1, h2])
    | some user =>
      by_cases h3 : (user.tenantId == tenantId) = true
      · exact Or.inr ⟨user, by simp [getSessionUser, h1, h2, h3],
          beq_iff_eq.mp h3⟩
      · exact Or.inl (by simp [getSessionUser, h1, h2, h3])

/-- Claim C2: the authentication gate yields an authenticated user only
when every check passes. `getSessionUser tenantId` returns `none` or a
user row whose `tenantId` equals the requested tenant; the same carries
over to `getAuthenticatedUser` with the tenant resolved from the request;
and in particular a missing user row, or a user row whose live tenant
differs from the requested one, yields `none`. -/
theorem claim_C2_gate_tenant_consistency :
    (∀ (sessions : List Session) (users : List User) (cookie : Option String)
        (tenantId : String) (now : Nat),
      getSessionUser sessions users cookie tenantId now = none ∨
      ∃ u, getSessionUser sessions users cookie tenantId now = some u ∧
        u.tenantId = tenantId) ∧
    (∀ (ts : TenantStore) (users : List User) (sessions : List Session)
        (subHeader cookie : Option String) (now : Nat),
      getAuthenticatedUser ts users sessions subHeader cookie now = none ∨
      ∃ u tenant, getTenantFromRequest ts subHeader = some tenant ∧
        getAuthenticatedUser ts users sessions subHeader cookie now = some u ∧
        u.tenantId = tenant.id) ∧
    (∀ (sessions : List Session) (users : List User) (cookie : Option String)
        (tenantId : String) (now : Nat) (sid : SessionIdentity),
      (getSession sessions cookie (some tenantId) now).1 = some sid →
      users.find? (fun u => u.id == sid.userId) = none →
      getSessionUser sessions users cookie tenantId now = none) ∧
    (∀ (sessions : List Session) (users : List User) (cookie : Option String)
        (tenantId : String) (now : Nat) (sid : SessionIdentity) (user : User),
      (getSession sessions cookie (some tenantId) now).1 = some sid →
      users.find? (fun u => u.id == sid.userId) = some user →
      user.tenantId ≠ tenantId →
      getSessionUser sessions users cookie tenantId now = none) := by
  refine ⟨getSessionUser_tenant_consistent, ?_, ?_, ?_⟩
  · intro ts users sessions subHeader cookie now
    unfold getAuthenticatedUser
    cases ht : getTenantFromRequest ts subHeader with
    | none => exact Or.inl rfl
    | some tenant =>
      rcases getSessionUser_tenant_consistent sessions users cookie tenant.id
          now with h | ⟨u, hu, htid⟩
      · exact Or.inl h
      · exact Or.inr ⟨u, tenant, rfl, hu, htid⟩
  · intro sessions users cookie tenantId now sid h1 h2
    simp [getSessionUser, h1, h2]
  · intro sessions users cookie tenantId now sid user h1 h2 hne
    have hb : ¬ ((user.tenantId == tenantId) = true) :=
      fun hb => hne (beq_iff_eq.mp hb)
    simp [getSessionUser, h1, h2, hb]

/-- Claim C2 witness: a valid session whose user row is gone
is rejected, as is one whose user row lives in another tenant. -/
theorem claim_C2_witness :
    getSessionUser [⟨"u1", "t1", "tok", 100⟩] [] (some "tok") "t1" 50 = none ∧
    getSessionUser [⟨"u1", "t1", "tok", 100⟩]
        [⟨"u1", "a@x.com", "d", none, "t2"⟩] (some "tok") "t1" 50 = none :=
  ⟨claim_C2_gate_tenant_consistency.2.2.1 [⟨"u1", "t1", "tok", 100⟩] []
      (some "tok") "t1" 50 ⟨"u1", "t1", "tok"⟩ (by decide) (by decide),
   claim_C2_gate_tenant_consistency.2.2.2 [⟨"u1", "t1", "tok", 100⟩]
      [⟨"u1", "a@x.com", "d", none, "t2"⟩] (some "tok") "t1" 50
      ⟨"u1", "t1", "tok"⟩ ⟨"u1", "a@x.com", "d", none, "t2"⟩
      (by decide) (by decide) (by decide)⟩

/-- Claim C7: the tenant directory collapses a storage failure and a
missing subdomain into the same `none` outcome (no distinct error class
reaches the caller — the function is total into `Option`), and the lookup
key is the trimmed, lower-cased input: any returned tenant is a stored row
whose subdomain equals the normalized input. -/
theorem claim_C7_tenant_lookup_error_collapse (ts : TenantStore)
    (subdomain : String) :
    (ts.storageFails = true → getTenantBySubdomain ts subdomain = none) ∧
    (ts.tenants.find?
        (fun t => t.subdomain == jsTrim (jsToLower subdomain)) = none →
      getTenantBySubdomain ts subdomain = none) ∧
    (∀ t, getTenantBySubdomain ts subdomain = some t →
      t ∈ ts.tenants ∧ t.subdomain = jsTrim (jsToLower subdomain)) := by
  refine ⟨?_, ?_, ?_⟩
  · intro h
    simp [getTenantBySubdomain, prismaTenantFindUnique, h]
  · intro h
    cases hf : ts.storageFails <;>
      simp [getTenantBySubdomain, prismaTenantFindUnique, hf, h]
  · intro t ht
    unfold getTenantBySubdomain prismaTenantFindUnique at ht
    cases hf : ts.storageFails with
    | true => simp [hf] at ht
    | false =>
      simp only [hf, Bool.false_eq_true, if_false] at ht
      have hp := List.find?_some ht
      simp only [beq_iff_eq] at hp
      exact ⟨List.mem_of_find?_eq_some ht, hp⟩

/-- Claim C7 witness: a storage failure and a missing subdomain both
produce the `none` outcome. -/
theorem claim_C7_witness :
    getTenantBySubdomain ⟨[⟨"t1", "acme", "Acme"⟩], true⟩ " Acme " = none ∧
    getTenantBySubdomain ⟨[⟨"t1", "acme", "Acme"⟩], false⟩ "ghost" = none :=
  ⟨(claim_C7_tenant_lookup_error_collapse ⟨[⟨"t1", "acme", "Acme"⟩], true⟩
      " Acme ").1 rfl,
   (claim_C7_tenant_lookup_error_collapse ⟨[⟨"t1", "acme", "Acme"⟩], false⟩
      "ghost").2.1 (by decide)⟩

/-- Claim C6: with the tenant resolved and both fields present, a login
whose email matches no user of the tenant and a login whose email matches
but whose password fails bcrypt comparison produce the identical
caller-visible outcome: status 401 with body
`"Invalid email or password"`, and no session is created in either case —
so the caller cannot enumerate users. -/
theorem claim_C6_login_no_user_enumeration (ts : TenantStore)
    (users : List User) (sessions : List Session)
    (verify : String → String → Bool) (subHeader : Option String)
    (email password : Option String) (newToken : String) (now : Nat)
    (tenant : Tenant)
    (hten : getTenantFromRequest ts subHeader = some tenant)
    (hmail : optTruthy email = true) (hpw : optTruthy password = true) :
    (findByEmail users tenant.id (email.getD "") = none →
      loginPOST ts users sessions verify subHeader email password newToken now
        = ⟨401, .err "Invalid email or password", sessions⟩) ∧
    ∀ u, findByEmail users tenant.id (email.getD "") = some u →
      verify (password.getD "") u.password = false →
      loginPOST ts users sessions verify subHeader email password newToken now
        = ⟨401, .err "Invalid email or password", sessions⟩ := by
  constructor
  · intro hfind
    simp [loginPOST, hten, hmail, hpw, hfind]
  · intro u hfind hverify
    simp [loginPOST, hten, hmail, hpw, hfind, hverify]

/-- Claim C6 witness: unknown email versus wrong password on a concrete
store, both yielding the very same response. -/
theorem claim_C6_witness :
    loginPOST ⟨[⟨"t1", "acme", "Acme"⟩], false⟩
        [⟨"u1", "a@x.com", "digest", none, "t1"⟩] [] (fun p d => p == d)
        (some "acme") (some "b@x.com") (some "pw") "ntok" 17
      = ⟨401, .err "Invalid email or password", []⟩ ∧
    loginPOST ⟨[⟨"t1", "acme", "Acme"⟩], false⟩
        [⟨"u1", "a@x.com", "digest", none, "t1"⟩] [] (fun p d => p == d)
        (some "acme") (some "a@x.com") (some "pw") "ntok" 17
      = ⟨401, .err "Invalid email or password", []⟩ :=
  ⟨(claim_C6_login_no_user_enumeration ⟨[⟨"t1", "acme", "Acme"⟩], false⟩
      [⟨"u1", "a@x.com", "digest", none, "t1"⟩] [] (fun p d => p == d)
      (some "acme") (some "b@x.com") (some "pw") "ntok" 17
      ⟨"t1", "acme", "Acme"⟩ (by decide) (by decide) (by decide)).1 (by decide),
   (claim_C6_login_no_user_enumeration ⟨[⟨"t1", "acme", "Acme"⟩], false⟩
      [⟨"u1", "a@x.com", "digest", none, "t1"⟩] [] (fun p d => p == d)
      (some "acme") (some "a@x.com") (some "pw") "ntok" 17
      ⟨"t1", "acme", "Acme"⟩ (by decide) (by decide) (by decide)).2
      ⟨"u1", "a@x.com", "digest", none, "t1"⟩ (by decide) (by decide)⟩

/-- Claim C8: with the tenant resolved and all validations passing, signup
answers 409 Conflict and creates neither a user row nor a session whenever
`(email, tenantId)` already exists; with no duplicate it answers 201,
stores the new user with the lower-cased trimmed email, and immediately
creates a session for the new user in the resolved tenant. -/
theorem claim_C8_signup_conflict_or_create (ts : TenantStore)
    (users : List User) (sessions : List Session) (hash : String → String)
    (subHeader : Option String) (email password name : Option String)
    (newUserId newToken : String) (now : Nat) (tenant : Tenant)
    (hten : getTenantFromRequest ts subHeader = some tenant)
    (hmail : optTruthy email = true) (hpw : optTruthy password = true)
    (hfmt : emailFormatOk (email.getD "") = true)
    (hlen : 6 ≤ (password.getD "").length) :
    (∀ u, findByEmail users tenant.id (email.getD "") = some u →
      signupPOST ts users sessions hash subHeader email password name
          newUserId newToken now
        = ⟨409, users, sessions⟩) ∧
    (findByEmail users tenant.id (email.getD "") = none →
      signupPOST ts users sessions hash subHeader email password name
          newUserId newToken now
        = ⟨201,
            ⟨newUserId, jsTrim (jsToLower (email.getD "")),
              hash (password.getD ""), jsOptName name, tenant.id⟩ :: users,
            ⟨newUserId, tenant.id, newToken, now + sessionLifetimeMs⟩
              :: sessions⟩) := by
  have hl2 : ¬ ((password.getD "").length < 6) := Nat.not_lt.mpr hlen
  constructor
  · intro u hfind
    simp [signupPOST, hten, hmail, hpw, hfmt, hl2, hfind]
  · intro hfind
    simp [signupPOST, hten, hmail, hpw, hfmt, hl2, hfind, createSession]

/-- Claim C8 witness: a concrete duplicate signup answers 409 with both
tables untouched, and a concrete fresh signup answers 201 and creates
the user and a session. -/
theorem claim_C8_witness :
    signupPOST ⟨[⟨"t1", "acme", "Acme"⟩], false⟩
        [⟨"u1", "a@x.com", "d", none, "t1"⟩] [] (fun p => p ++ "!")
        (some "acme") (some "a@x.com") (some "secret") none "nu" "ntok" 17
      = ⟨409, [⟨"u1", "a@x.com", "d", none, "t1"⟩], []⟩ ∧
    signupPOST ⟨[⟨"t1", "acme", "Acme"⟩], false⟩ [] [] (fun p => p ++ "!")
        (some "acme") (some "a@x.com") (some "secret") none "nu" "ntok" 17
      = ⟨201,
          [⟨"nu", jsTrim (jsToLower "a@x.com"), "secret" ++ "!", none, "t1"⟩],
          [⟨"nu", "t1", "ntok", 17 + sessionLifetimeMs⟩]⟩ :=
  ⟨(claim_C8_signup_conflict_or_create ⟨[⟨"t1", "acme", "Acme"⟩], false⟩
      [⟨"u1", "a@x.com", "d", none, "t1"⟩] [] (fun p => p ++ "!")
      (some "acme") (some "a@x.com") (some "secret") none "nu" "ntok" 17
      ⟨"t1", "acme", "Acme"⟩ (by decide) (by decide) (by decide) (by decide)
      (by decide)).1 ⟨"u1", "a@x.com", "d", none, "t1"⟩ (by decide),
   (claim_C8_signup_conflict_or_create ⟨[⟨"t1", "acme", "Acme"⟩], false⟩
      [] [] (fun p => p ++ "!")
      (some "acme") (some "a@x.com") (some "secret") none "nu" "ntok" 17
      ⟨"t1", "acme", "Acme"⟩ (by decide) (by decide) (by decide) (by decide)
      (by decide)).2 (by decide)⟩

end MultitenantBlog
